import Mathlib

/-!
Verification of the WreckWatch vehicle-auction search page
(`src/app/search/page.tsx`).

The embedding models the query-construction and state-transition logic of
the page as pure Lean functions:

* `Filters` mirrors the `Filters` record of the page.  Text fields are
  `String` with `""` standing for the empty input; the numeric text inputs
  (`yearFrom`, `yearTo`, `priceMin`, `priceMax`) are `Option Int`, with
  `none` standing for the empty string and `some n` for a numeric input
  (JavaScript truthiness of a non-empty string, `Number(...)` conversion);
  the date inputs are `String` in ISO `yyyy-mm-dd` form, compared
  lexicographically exactly as the source compares them with `>`.
* `normalizeRanges` is the range-swap block at the top of `fetchData`.
* `buildPreds` and `fetchQuery` are the query built by `fetchData`:
  predicates in source order, the validated sort column, the sort
  direction and the pagination range.
* `toggleSort`, `focusVinAll`, `goBack`, `applyFetch`, `renderLinkCell`,
  `totalPages` and the pager operations embed the remaining handlers.
-/

namespace WreckWatch

/-- The `Filters` record of the page (`type Filters`). -/
structure Filters where
  vin : String
  buyer_no : String
  make : String
  model : String
  yearFrom : Option Int
  yearTo : Option Int
  dateFrom : String
  dateTo : String
  wovr_status : String
  sale_status : String
  incident_types : List String
  priceMin : Option Int
  priceMax : Option Int
  auction_house : String
  state : String
deriving DecidableEq, Repr

/-- The `INITIAL_FILTERS` record: every field empty. -/
def INITIAL_FILTERS : Filters :=
  { vin := "", buyer_no := "", make := "", model := ""
    yearFrom := none, yearTo := none, dateFrom := "", dateTo := ""
    wovr_status := "", sale_status := "", incident_types := []
    priceMin := none, priceMax := none, auction_house := "", state := "" }

/-- Sort direction (`'asc' | 'desc'`). -/
inductive Direction where
  | asc
  | desc
deriving DecidableEq, Repr

/-- Source `type Sort`: a column name and a direction. -/
structure SortSpec where
  column : String
  direction : Direction
deriving DecidableEq, Repr

/-- The `SORTABLE` set: every displayed column except the UI-only `link`, plus `id`. -/
def SORTABLE : List String :=
  ["year", "make", "model", "sub_model", "vin", "odometer", "wovr_status",
   "incident_type", "sale_status", "sold_price", "sold_date",
   "auction_house", "buyer_number", "state", "id"]

/-- Source condition `yearFrom && yearTo && Number(yearFrom) > Number(yearTo)`. -/
def yearsReversed (f : Filters) : Bool :=
  match f.yearFrom, f.yearTo with
  | some a, some b => decide (b < a)
  | _, _ => false

/-- Source condition `priceMin && priceMax && Number(priceMin) > Number(priceMax)`. -/
def pricesReversed (f : Filters) : Bool :=
  match f.priceMin, f.priceMax with
  | some a, some b => decide (b < a)
  | _, _ => false

/-- JavaScript string `<`: lexicographic comparison by code unit, modelled
structurally over the character lists. -/
def ltCharsJS : List Char → List Char → Bool
  | [], [] => false
  | [], _ :: _ => true
  | _ :: _, [] => false
  | a :: as, b :: bs =>
    if a < b then true else if b < a then false else ltCharsJS as bs

/-- JavaScript string `<` on strings. -/
def ltStrJS (a b : String) : Bool := ltCharsJS a.data b.data

/-- Source condition `dateFrom && dateTo && dateFrom > dateTo` (lexicographic string order). -/
def datesReversed (f : Filters) : Bool :=
  decide (f.dateFrom ≠ "" ∧ f.dateTo ≠ "" ∧ ltStrJS f.dateTo f.dateFrom = true)

/-- Source swap `[yearFrom, yearTo] = [yearTo, yearFrom]`. -/
def swapYears (f : Filters) : Filters :=
  { f with yearFrom := f.yearTo, yearTo := f.yearFrom }

/-- Source swap `[priceMin, priceMax] = [priceMax, priceMin]`. -/
def swapPrices (f : Filters) : Filters :=
  { f with priceMin := f.priceMax, priceMax := f.priceMin }

/-- Source swap `[dateFrom, dateTo] = [dateTo, dateFrom]`. -/
def swapDates (f : Filters) : Filters :=
  { f with dateFrom := f.dateTo, dateTo := f.dateFrom }

/-- Guarded swap `if (yearFrom && yearTo && Number(yearFrom) > Number(yearTo))`. -/
def normYears (f : Filters) : Filters :=
  if yearsReversed f then swapYears f else f

/-- Guarded swap `if (priceMin && priceMax && Number(priceMin) > Number(priceMax))`. -/
def normPrices (f : Filters) : Filters :=
  if pricesReversed f then swapPrices f else f

/-- Guarded swap `if (dateFrom && dateTo && dateFrom > dateTo)`. -/
def normDates (f : Filters) : Filters :=
  if datesReversed f then swapDates f else f

/-- The `// Normalise ranges` block at the start of `fetchData`: each of the
three ranges is swapped when both bounds are present and reversed, in
source order (years, then prices, then dates). -/
def normalizeRanges (f : Filters) : Filters :=
  normDates (normPrices (normYears f))

/-- One predicate of the built query.  `ilike` with no wildcard is the
case-insensitive whole-string equality used for VIN and buyer number;
`eqS` is `.eq`; `gteN`/`lteN` are numeric `.gte`/`.lte`; `inList` is
`.in`; `gteD`/`lteD` are the ISO-string date bounds. -/
inductive Pred where
  | ilike (col : String) (val : String)
  | eqS (col : String) (val : String)
  | gteN (col : String) (val : Int)
  | lteN (col : String) (val : Int)
  | inList (col : String) (vals : List String)
  | gteD (col : String) (val : String)
  | lteD (col : String) (val : String)
deriving DecidableEq, Repr

/-- Source `toStartOfDayISO`: start-of-day timestamp for a `yyyy-mm-dd` value.
The `Date`/`toISOString` round trip is modelled as suffixing the
start-of-day time, which preserves the date's identity and order. -/
def toStartOfDayISO (d : String) : String := d ++ "T00:00:00"

/-- Source `toEndOfDayISO`: end-of-day timestamp for a `yyyy-mm-dd` value. -/
def toEndOfDayISO (d : String) : String := d ++ "T23:59:59.999"

/-- Model of `.trim()` on a text input: strip leading and trailing whitespace,
modelled structurally over the character list so that it evaluates on
concrete inputs. -/
def trimJS (s : String) : String :=
  ⟨((s.data.dropWhile Char.isWhitespace).reverse.dropWhile Char.isWhitespace).reverse⟩

/-- Lookup `wovrVariantsMap[key] ?? [key]`. -/
def lookupWovr (wm : List (String × List String)) (key : String) : List String :=
  match wm.find? (fun p => p.1 = key) with
  | some p => p.2
  | none => [key]

/-- Model of `.toLowerCase()`, structural over the character list. -/
def toLowerJS (s : String) : String := ⟨s.data.map Char.toLower⟩

/-- Model of `.split(',')` on the character list; splitting the empty string yields
`[""]`, as in JavaScript. -/
def splitCommaAux : List Char → List Char → List (List Char)
  | [], acc => [acc.reverse]
  | c :: rest, acc =>
    if c = ',' then acc.reverse :: splitCommaAux rest []
    else splitCommaAux rest (c :: acc)

/-- Model of `.split(',')` on a string. -/
def splitComma (s : String) : List String :=
  (splitCommaAux s.data []).map (fun l => ⟨l⟩)

/-- Model of `.startsWith(pfx)`, structural over the character lists. -/
def startsWithJS (s pfx : String) : Bool :=
  decide (s.data.take pfx.data.length = pfx.data)

/-- The comma-split, trimmed, lowercased token list of a raw damage option
(`opt.split(',').map(s => s.trim().toLowerCase())`). -/
def damageTokens (opt : String) : List String :=
  (splitComma opt).map (fun s => toLowerJS (trimJS s))

/-- The tag of a `"(ALL) …"` quick pick (`sel.slice(6).trim().toLowerCase()`). -/
def allTag (sel : String) : String := toLowerJS (trimJS ⟨sel.data.drop 6⟩)

/-- Insertion into a JavaScript `Set` modelled as an insertion-ordered
duplicate-free list. -/
def insertUniq (l : List String) (x : String) : List String :=
  if x ∈ l then l else l ++ [x]

/-- The `DAMAGE "(ALL) …" EXPANSION` block: each `"(ALL) <tag>"` selection
is expanded to every raw option (a member of `dmgOpts` that does not start
with `"(ALL) "`) whose token list contains the tag; any other selection is
added verbatim. -/
def expandDamage (dmgOpts : List String) (sels : List String) : List String :=
  let rawOpts := dmgOpts.filter (fun o => ¬ startsWithJS o "(ALL) ")
  sels.foldl
    (fun acc sel =>
      if startsWithJS sel "(ALL) " then
        rawOpts.foldl
          (fun acc2 opt =>
            if allTag sel ∈ damageTokens opt then insertUniq acc2 opt else acc2)
          acc
      else insertUniq acc sel)
    []

/-- A predicate guarded by a condition (`if (…) q = q.xxx(…)`). -/
def guardPred (c : Prop) [Decidable c] (p : Pred) : List Pred :=
  if c then [p] else []

/-- A numeric predicate guarded by presence of the numeric input. -/
def optNumPred (mk : Int → Pred) (o : Option Int) : List Pred :=
  match o with
  | some n => [mk n]
  | none => []

/-- The predicate list built by `fetchData` on the (already normalised)
filter state `f`, in source order.  `wm` is `wovrVariantsMap` and
`dmgOpts` is `opts.incident_type`. -/
def buildPreds (f : Filters) (wm : List (String × List String))
    (dmgOpts : List String) : List Pred :=
  guardPred (trimJS f.vin ≠ "") (Pred.ilike "vin" (trimJS f.vin))
  ++ guardPred (trimJS f.buyer_no ≠ "") (Pred.ilike "buyer_number" (trimJS f.buyer_no))
  ++ guardPred (f.make ≠ "") (Pred.eqS "make" f.make)
  ++ guardPred (f.model ≠ "") (Pred.eqS "model" f.model)
  ++ optNumPred (Pred.gteN "year") f.yearFrom
  ++ optNumPred (Pred.lteN "year") f.yearTo
  ++ guardPred (f.wovr_status ≠ "")
       (Pred.inList "wovr_status" (lookupWovr wm f.wovr_status))
  ++ guardPred (f.sale_status ≠ "") (Pred.eqS "sale_status" f.sale_status)
  ++ guardPred (f.incident_types ≠ [])
       (Pred.inList "incident_type" (expandDamage dmgOpts f.incident_types))
  ++ optNumPred (Pred.gteN "sold_price") f.priceMin
  ++ optNumPred (Pred.lteN "sold_price") f.priceMax
  ++ guardPred (f.auction_house ≠ "") (Pred.eqS "auction_house" f.auction_house)
  ++ guardPred (f.state ≠ "") (Pred.eqS "state" f.state)
  ++ guardPred (f.dateFrom ≠ "") (Pred.gteD "sold_date" (toStartOfDayISO f.dateFrom))
  ++ guardPred (f.dateTo ≠ "") (Pred.lteD "sold_date" (toEndOfDayISO f.dateTo))

/-- The executed query: predicates, sort, and pagination range. -/
structure Query where
  preds : List Pred
  sortColumn : String
  ascending : Bool
  rangeFrom : Nat
  rangeTo : Nat
deriving DecidableEq, Repr

/-- The query construction of `fetchData`: normalise the ranges, build the
predicates, validate the sort column against `SORTABLE` (falling back to
`id`), and compute the zero-based pagination range. -/
def fetchQuery (debounced : Filters) (wm : List (String × List String))
    (dmgOpts : List String) (srt : SortSpec) (page pageSize : Nat) : Query :=
  let f := normalizeRanges debounced
  { preds := buildPreds f wm dmgOpts
    sortColumn := if srt.column ∈ SORTABLE then srt.column else "id"
    ascending := srt.direction = Direction.asc
    rangeFrom := (page - 1) * pageSize
    rangeTo := (page - 1) * pageSize + pageSize - 1 }

/-- Source `toggleSort(col)`: a no-op on non-sortable columns; otherwise selects
`col`, descending exactly when `col` is already active ascending. -/
def toggleSort (s : SortSpec) (col : String) : SortSpec :=
  if col ∈ SORTABLE then
    { column := col
      direction :=
        if s.column = col ∧ s.direction = Direction.asc then Direction.desc
        else Direction.asc }
  else s

/-- Source `type Snapshot`: filters, page, sort and page size. -/
structure Snapshot where
  filters : Filters
  page : Nat
  sort : SortSpec
  pageSize : Nat
deriving DecidableEq, Repr

/-- The page state touched by the VIN drill-down handlers. -/
structure AppState where
  filters : Filters
  page : Nat
  sort : SortSpec
  pageSize : Nat
  history : List Snapshot
deriving DecidableEq, Repr

/-- Source `focusVinAll(vin)`: for a non-empty VIN, push the current snapshot
(`[...h, {filters, page, sort, pageSize}]`), reset the page to 1 and
replace the filters with `{ ...INITIAL_FILTERS, vin }`. -/
def focusVinAll (vin : String) (s : AppState) : AppState :=
  if vin = "" then s
  else
    { filters := { INITIAL_FILTERS with vin := vin }
      page := 1
      sort := s.sort
      pageSize := s.pageSize
      history := s.history ++ [⟨s.filters, s.page, s.sort, s.pageSize⟩] }

/-- Source `goBack()`: restore the most recent snapshot (`h[h.length-1]`) and drop
it from the history (`h.slice(0, -1)`); a no-op on an empty history. -/
def goBack (s : AppState) : AppState :=
  match s.history.getLast? with
  | none => s
  | some snap =>
    { filters := snap.filters
      page := snap.page
      sort := snap.sort
      pageSize := snap.pageSize
      history := s.history.dropLast }

/-- The response of the awaited query: `data` and `count` may each be null
(`data || []`, `count || 0`), or the call throws with a message
(`e.message`, with `""` standing for a missing message). -/
inductive FetchResponse (α : Type) where
  | ok (data : Option (List α)) (count : Option Nat)
  | err (message : String)
deriving DecidableEq, Repr

/-- The result state written by `fetchData`. -/
structure FetchOutcome (α : Type) where
  rows : List α
  total : Nat
  error : String
  loading : Bool
deriving DecidableEq, Repr

/-- The state committed at the end of `fetchData`: on success
`setRows(data || []); setTotal(count || 0)` with the error cleared at
entry; on failure `setError(e.message || 'Failed to fetch'); setRows([]);
setTotal(0)`; `setLoading(false)` in the `finally` on both paths. -/
def applyFetch {α : Type} (resp : FetchResponse α) : FetchOutcome α :=
  match resp with
  | FetchResponse.ok data count =>
    { rows := data.getD [], total := count.getD 0, error := "", loading := false }
  | FetchResponse.err msg =>
    { rows := [], total := 0
      error := if msg = "" then "Failed to fetch" else msg
      loading := false }

/-- The fields of a result row read by `renderLinkCell`: `url`,
`auction_date` and `sold_date`, each possibly absent. -/
structure Row where
  url : Option String
  auction_date : Option String
  sold_date : Option String
deriving DecidableEq, Repr

/-- What the link cell renders. -/
inductive LinkCell where
  | placeholder
  | link (href : String)
deriving DecidableEq, Repr

/-- Source `r.auction_date ? Date.parse(r.auction_date) : NaN`, with `parse`
standing for the environment's `Date.parse` (`none` = `NaN`); an absent or
empty field is falsy and yields `NaN`. -/
def tsOf (parse : String → Option Int) (field : Option String) : Option Int :=
  match field with
  | none => none
  | some s => if s = "" then none else parse s

/-- Source `renderLinkCell(r)` at current time `now` (milliseconds): placeholder
when the row has no url string, when neither timestamp parses, or when
`now` is past 7 days after the reference timestamp (`auction_date` when
parseable, otherwise `sold_date`); an active link otherwise. -/
def renderLinkCell (parse : String → Option Int) (now : Int) (r : Row) : LinkCell :=
  let href := r.url.getD ""
  if href = "" then LinkCell.placeholder
  else
    match tsOf parse r.auction_date, tsOf parse r.sold_date with
    | none, none => LinkCell.placeholder
    | some a, _ =>
      if now > a + 7 * 24 * 60 * 60 * 1000 then LinkCell.placeholder
      else LinkCell.link href
    | none, some b =>
      if now > b + 7 * 24 * 60 * 60 * 1000 then LinkCell.placeholder
      else LinkCell.link href

/-- The reference timestamp of the link rule: the parsed auction date when
present, otherwise the parsed sold date. -/
def refTsOf (parse : String → Option Int) (r : Row) : Option Int :=
  match tsOf parse r.auction_date with
  | some a => some a
  | none => tsOf parse r.sold_date

/-- Restatement of the link-visibility rule from the spec's words, for
comparison with `renderLinkCell`: the row has a non-empty url, some
reference timestamp exists, and `now` is within 7 days after it. -/
def linkVisibleSpec (parse : String → Option Int) (now : Int) (r : Row) : Bool :=
  (r.url.getD "" ≠ "") &&
    (match refTsOf parse r with
     | some t => now ≤ t + 7 * 24 * 60 * 60 * 1000
     | none => false)

/-- The page-size choices offered by the pager (`[10, 25, 50, 100]`). -/
def PAGE_SIZES : List Nat := [10, 25, 50, 100]

/-- Source `totalPages = Math.max(1, Math.ceil(total / pageSize))`. -/
def totalPages (total pageSize : Nat) : Nat :=
  max 1 ((total + pageSize - 1) / pageSize)

/-- The pager state: current page, page size, and the fetched total. -/
structure PagerState where
  page : Nat
  pageSize : Nat
  total : Nat
deriving DecidableEq, Repr

/-- The `Prev` button: `setPage(p => Math.max(1, p - 1))`. -/
def prevPage (s : PagerState) : PagerState :=
  { s with page := max 1 (s.page - 1) }

/-- The `Next` button: `setPage(p => Math.min(totalPages, p + 1))`. -/
def nextPage (s : PagerState) : PagerState :=
  { s with page := min (totalPages s.total s.pageSize) (s.page + 1) }

/-- The page-size select: `setPageSize(n)` with the page left unchanged. -/
def setPageSizeOp (n : Nat) (s : PagerState) : PagerState :=
  { s with pageSize := n }

/-- A filter mutation (`update(k, v)`): `setPage(1)` before the filter write. -/
def resetPageOp (s : PagerState) : PagerState :=
  { s with page := 1 }

/-- A fetch completion committing a new total (`setTotal`). -/
def setTotalOp (n : Nat) (s : PagerState) : PagerState :=
  { s with total := n }

/-- The pagination invariant claimed by the spec:
`1 ≤ page ≤ totalPages`. -/
def pagerInv (s : PagerState) : Prop :=
  1 ≤ s.page ∧ s.page ≤ totalPages s.total s.pageSize

instance (s : PagerState) : Decidable (pagerInv s) := by
  unfold pagerInv; infer_instance

/-! ## Concrete example inputs -/

/-- A filter state with all three ranges reversed (the spec's Toyota
2020/2018 scenario extended with reversed price and date ranges). -/
def filtersAllReversed : Filters :=
  { INITIAL_FILTERS with
    make := "Toyota", yearFrom := some 2020, yearTo := some 2018
    priceMin := some 5000, priceMax := some 1000
    dateFrom := "2024-05-01", dateTo := "2024-01-01" }

/-- A filter state with a whitespace-only VIN and a padded buyer number. -/
def filtersPaddedText : Filters :=
  { INITIAL_FILTERS with vin := "   ", buyer_no := " B12345 " }

/-- A damage option list: two quick picks ahead of four raw values. -/
def damageOptsEx : List String :=
  ["(ALL) Water", "(ALL) Front", "Front", "Water", "Rear, Water", "Burn"]

/-- A damage selection: one quick pick plus one raw value. -/
def filtersDamageEx : Filters :=
  { INITIAL_FILTERS with incident_types := ["(ALL) Water", "Front"] }

/-- A date-parse environment for the link-cell examples: only the string
`"D0"` parses, to timestamp 0. -/
def parseFix : String → Option Int :=
  fun s => if s = "D0" then some 0 else none

/-- A row with a parseable auction date but no url. -/
def rowNoUrl : Row :=
  { url := none, auction_date := some "D0", sold_date := none }

/-- A row with a url and a parseable auction date, no sold date. -/
def rowWithUrl : Row :=
  { url := some "https://example.com/lot/1", auction_date := some "D0", sold_date := none }

/-! ## Helper lemmas -/

lemma normYears_eq (f : Filters) :
    normYears f = { f with
      yearFrom := if yearsReversed f then f.yearTo else f.yearFrom
      yearTo := if yearsReversed f then f.yearFrom else f.yearTo } := by
  by_cases h : yearsReversed f = true <;> simp [normYears, swapYears, h]

lemma normPrices_eq (f : Filters) :
    normPrices f = { f with
      priceMin := if pricesReversed f then f.priceMax else f.priceMin
      priceMax := if pricesReversed f then f.priceMin else f.priceMax } := by
  by_cases h : pricesReversed f = true <;> simp [normPrices, swapPrices, h]

lemma normDates_eq (f : Filters) :
    normDates f = { f with
      dateFrom := if datesReversed f then f.dateTo else f.dateFrom
      dateTo := if datesReversed f then f.dateFrom else f.dateTo } := by
  by_cases h : datesReversed f = true <;> simp [normDates, swapDates, h]

lemma pricesReversed_normYears (f : Filters) :
    pricesReversed (normYears f) = pricesReversed f := by
  unfold normYears; split <;> rfl

lemma datesReversed_normYears (f : Filters) :
    datesReversed (normYears f) = datesReversed f := by
  unfold normYears; split <;> rfl

lemma datesReversed_normPrices (f : Filters) :
    datesReversed (normPrices f) = datesReversed f := by
  unfold normPrices; split <;> rfl

/-- The normalisation block in closed form: each range field is swapped
with its partner exactly when its pair is reversed, and every other field
is untouched. -/
lemma normalizeRanges_eq (f : Filters) :
    normalizeRanges f =
      { f with
        yearFrom := if yearsReversed f then f.yearTo else f.yearFrom
        yearTo := if yearsReversed f then f.yearFrom else f.yearTo
        priceMin := if pricesReversed f then f.priceMax else f.priceMin
        priceMax := if pricesReversed f then f.priceMin else f.priceMax
        dateFrom := if datesReversed f then f.dateTo else f.dateFrom
        dateTo := if datesReversed f then f.dateFrom else f.dateTo } := by
  unfold normalizeRanges
  rw [normDates_eq, datesReversed_normPrices, datesReversed_normYears,
    normPrices_eq, pricesReversed_normYears, normYears_eq]

lemma mem_guardPred {c : Prop} [Decidable c] {p x : Pred} :
    x ∈ guardPred c p ↔ c ∧ x = p := by
  by_cases h : c <;> simp [guardPred, h]

lemma mem_optNumPred {mk : Int → Pred} {o : Option Int} {x : Pred} :
    x ∈ optNumPred mk o ↔ ∃ n, o = some n ∧ x = mk n := by
  cases o <;> simp [optNumPred]

lemma normalizeRanges_vin (f : Filters) :
    (normalizeRanges f).vin = f.vin := by simp [normalizeRanges_eq]

lemma normalizeRanges_buyer_no (f : Filters) :
    (normalizeRanges f).buyer_no = f.buyer_no := by simp [normalizeRanges_eq]

lemma normalizeRanges_incident_types (f : Filters) :
    (normalizeRanges f).incident_types = f.incident_types := by
  simp [normalizeRanges_eq]

lemma mem_buildPreds_yearFrom {g : Filters} {wm : List (String × List String)}
    {dmg : List String} {v : Int} (h : g.yearFrom = some v) :
    Pred.gteN "year" v ∈ buildPreds g wm dmg := by
  simp [buildPreds, h, optNumPred]

lemma mem_buildPreds_yearTo {g : Filters} {wm : List (String × List String)}
    {dmg : List String} {v : Int} (h : g.yearTo = some v) :
    Pred.lteN "year" v ∈ buildPreds g wm dmg := by
  simp [buildPreds, h, optNumPred]

lemma mem_buildPreds_priceMin {g : Filters} {wm : List (String × List String)}
    {dmg : List String} {v : Int} (h : g.priceMin = some v) :
    Pred.gteN "sold_price" v ∈ buildPreds g wm dmg := by
  simp [buildPreds, h, optNumPred]

lemma mem_buildPreds_priceMax {g : Filters} {wm : List (String × List String)}
    {dmg : List String} {v : Int} (h : g.priceMax = some v) :
    Pred.lteN "sold_price" v ∈ buildPreds g wm dmg := by
  simp [buildPreds, h, optNumPred]

lemma mem_buildPreds_dateFrom {g : Filters} {wm : List (String × List String)}
    {dmg : List String} (h : g.dateFrom ≠ "") :
    Pred.gteD "sold_date" (toStartOfDayISO g.dateFrom) ∈ buildPreds g wm dmg := by
  simp [buildPreds, guardPred, h]

lemma mem_buildPreds_dateTo {g : Filters} {wm : List (String × List String)}
    {dmg : List String} (h : g.dateTo ≠ "") :
    Pred.lteD "sold_date" (toEndOfDayISO g.dateTo) ∈ buildPreds g wm dmg := by
  simp [buildPreds, guardPred, h]

lemma mem_insertUniq {l : List String} {x y : String} :
    y ∈ insertUniq l x ↔ y ∈ l ∨ y = x := by
  unfold insertUniq
  split
  · rename_i h
    constructor
    · exact fun hy => Or.inl hy
    · rintro (hy | rfl)
      · exact hy
      · exact h
  · simp

lemma mem_foldl_insertIf (P : String → Prop) [DecidablePred P]
    (raw acc : List String) (y : String) :
    y ∈ raw.foldl (fun a o => if P o then insertUniq a o else a) acc ↔
      y ∈ acc ∨ (y ∈ raw ∧ P y) := by
  induction raw generalizing acc with
  | nil => simp
  | cons o rest ih =>
    simp only [List.foldl_cons]
    rw [ih]
    by_cases hp : P o
    · simp only [hp, if_true, mem_insertUniq]
      constructor
      · rintro ((hy | rfl) | hy)
        · exact Or.inl hy
        · exact Or.inr ⟨List.mem_cons_self _ _, hp⟩
        · exact Or.inr ⟨List.mem_cons_of_mem _ hy.1, hy.2⟩
      · rintro (hy | ⟨hy, hpy⟩)
        · exact Or.inl (Or.inl hy)
        · rcases List.mem_cons.mp hy with rfl | hy
          · exact Or.inl (Or.inr rfl)
          · exact Or.inr ⟨hy, hpy⟩
    · simp only [hp, if_false]
      constructor
      · rintro (hy | hy)
        · exact Or.inl hy
        · exact Or.inr ⟨List.mem_cons_of_mem _ hy.1, hy.2⟩
      · rintro (hy | ⟨hy, hpy⟩)
        · exact Or.inl hy
        · rcases List.mem_cons.mp hy with rfl | hy
          · exact absurd hpy hp
          · exact Or.inr ⟨hy, hpy⟩

lemma mem_expandDamage_aux (raw : List String) (sels : List String)
    (acc : List String) (y : String) :
    y ∈ sels.foldl
        (fun acc sel =>
          if startsWithJS sel "(ALL) " then
            raw.foldl
              (fun acc2 opt =>
                if allTag sel ∈ damageTokens opt then insertUniq acc2 opt else acc2)
              acc
          else insertUniq acc sel)
        acc ↔
      y ∈ acc ∨
      (∃ sel ∈ sels, startsWithJS sel "(ALL) " = false ∧ y = sel) ∨
      (y ∈ raw ∧ ∃ sel ∈ sels, startsWithJS sel "(ALL) " = true ∧
        allTag sel ∈ damageTokens y) := by
  induction sels generalizing acc with
  | nil => simp
  | cons s rest ih =>
    simp only [List.foldl_cons]
    rw [ih]
    by_cases hs : startsWithJS s "(ALL) " = true
    · rw [if_pos hs,
        mem_foldl_insertIf (fun o => allTag s ∈ damageTokens o) raw acc y]
      constructor
      · rintro ((hy | ⟨hy, ht⟩) | hy | hy)
        · exact Or.inl hy
        · exact Or.inr (Or.inr ⟨hy, s, List.mem_cons_self _ _, hs, ht⟩)
        · obtain ⟨sel, hsel, hns, rfl⟩ := hy
          exact Or.inr (Or.inl ⟨y, List.mem_cons_of_mem _ hsel, hns, rfl⟩)
        · obtain ⟨hy, sel, hsel, hall, ht⟩ := hy
          exact Or.inr (Or.inr ⟨hy, sel, List.mem_cons_of_mem _ hsel, hall, ht⟩)
      · rintro (hy | hy | ⟨hy, sel, hsel, hall, ht⟩)
        · exact Or.inl (Or.inl hy)
        · obtain ⟨sel, hsel, hns, rfl⟩ := hy
          rcases List.mem_cons.mp hsel with rfl | hsel
          · simp [hs] at hns
          · exact Or.inr (Or.inl ⟨y, hsel, hns, rfl⟩)
        · rcases List.mem_cons.mp hsel with rfl | hsel
          · exact Or.inl (Or.inr ⟨hy, ht⟩)
          · exact Or.inr (Or.inr ⟨hy, sel, hsel, hall, ht⟩)
    · rw [if_neg hs, mem_insertUniq]
      have hs' : startsWithJS s "(ALL) " = false := by
        revert hs; cases startsWithJS s "(ALL) " <;> simp
      constructor
      · rintro ((hy | rfl) | hy | hy)
        · exact Or.inl hy
        · exact Or.inr (Or.inl ⟨y, List.mem_cons_self _ _, hs', rfl⟩)
        · obtain ⟨sel, hsel, hns, rfl⟩ := hy
          exact Or.inr (Or.inl ⟨y, List.mem_cons_of_mem _ hsel, hns, rfl⟩)
        · obtain ⟨hy, sel, hsel, hall, ht⟩ := hy
          exact Or.inr (Or.inr ⟨hy, sel, List.mem_cons_of_mem _ hsel, hall, ht⟩)
      · rintro (hy | hy | ⟨hy, sel, hsel, hall, ht⟩)
        · exact Or.inl (Or.inl hy)
        · obtain ⟨sel, hsel, hns, rfl⟩ := hy
          rcases List.mem_cons.mp hsel with rfl | hsel
          · exact Or.inl (Or.inr rfl)
          · exact Or.inr (Or.inl ⟨y, hsel, hns, rfl⟩)
        · rcases List.mem_cons.mp hsel with rfl | hsel
          · exact absurd hall hs
          · exact Or.inr (Or.inr ⟨hy, sel, hsel, hall, ht⟩)

/-- What ends up in the expanded damage set: the verbatim non-quick-pick
selections, plus every raw option whose token list contains the tag of
some selected quick pick. -/
lemma mem_expandDamage {dmgOpts sels : List String} {y : String} :
    y ∈ expandDamage dmgOpts sels ↔
      (∃ sel ∈ sels, startsWithJS sel "(ALL) " = false ∧ y = sel) ∨
      (y ∈ dmgOpts.filter (fun o => ¬ startsWithJS o "(ALL) ") ∧
        ∃ sel ∈ sels, startsWithJS sel "(ALL) " = true ∧
          allTag sel ∈ damageTokens y) := by
  unfold expandDamage
  rw [mem_expandDamage_aux]
  simp

lemma mem_buildPreds_incident {g : Filters} {wm : List (String × List String)}
    {dmg : List String} (h : g.incident_types ≠ []) :
    Pred.inList "incident_type" (expandDamage dmg g.incident_types) ∈
      buildPreds g wm dmg := by
  simp [buildPreds, guardPred, h]

/-- Exactly which `ilike` predicates the built query contains. -/
lemma ilike_mem_buildPreds {g : Filters} {wm : List (String × List String)}
    {dmg : List String} {col v : String} :
    Pred.ilike col v ∈ buildPreds g wm dmg ↔
      (col = "vin" ∧ trimJS g.vin ≠ "" ∧ v = trimJS g.vin) ∨
      (col = "buyer_number" ∧ trimJS g.buyer_no ≠ "" ∧ v = trimJS g.buyer_no) := by
  simp [buildPreds, mem_guardPred, mem_optNumPred]
  tauto

/-! ## Claim theorems -/

/-- C1: when both bounds of a range are present and reversed
(`yearFrom > yearTo`, `priceMin > priceMax`, or `dateFrom > dateTo`),
`fetchData` swaps them into ascending order before building the query, so
the executed query's lower-bound predicate carries the smaller value and
its upper-bound predicate the larger one; a range whose bounds are in
order, or with a bound absent, passes through unchanged, and no other
filter field is altered. -/
theorem C1_reversed_ranges_swapped (f : Filters) (wm : List (String × List String))
    (dmgOpts : List String) (srt : SortSpec) (page pageSize : Nat) :
    (∀ a b, f.yearFrom = some a → f.yearTo = some b → b < a →
      (normalizeRanges f).yearFrom = some b ∧ (normalizeRanges f).yearTo = some a ∧
      Pred.gteN "year" b ∈ (fetchQuery f wm dmgOpts srt page pageSize).preds ∧
      Pred.lteN "year" a ∈ (fetchQuery f wm dmgOpts srt page pageSize).preds) ∧
    (∀ a b, f.priceMin = some a → f.priceMax = some b → b < a →
      (normalizeRanges f).priceMin = some b ∧ (normalizeRanges f).priceMax = some a ∧
      Pred.gteN "sold_price" b ∈ (fetchQuery f wm dmgOpts srt page pageSize).preds ∧
      Pred.lteN "sold_price" a ∈ (fetchQuery f wm dmgOpts srt page pageSize).preds) ∧
    (f.dateFrom ≠ "" → f.dateTo ≠ "" → ltStrJS f.dateTo f.dateFrom = true →
      (normalizeRanges f).dateFrom = f.dateTo ∧ (normalizeRanges f).dateTo = f.dateFrom ∧
      Pred.gteD "sold_date" (toStartOfDayISO f.dateTo) ∈
        (fetchQuery f wm dmgOpts srt page pageSize).preds ∧
      Pred.lteD "sold_date" (toEndOfDayISO f.dateFrom) ∈
        (fetchQuery f wm dmgOpts srt page pageSize).preds) ∧
    (yearsReversed f = false →
      (normalizeRanges f).yearFrom = f.yearFrom ∧ (normalizeRanges f).yearTo = f.yearTo) ∧
    (pricesReversed f = false →
      (normalizeRanges f).priceMin = f.priceMin ∧ (normalizeRanges f).priceMax = f.priceMax) ∧
    (datesReversed f = false →
      (normalizeRanges f).dateFrom = f.dateFrom ∧ (normalizeRanges f).dateTo = f.dateTo) ∧
    ((normalizeRanges f).vin = f.vin ∧ (normalizeRanges f).buyer_no = f.buyer_no ∧
      (normalizeRanges f).make = f.make ∧ (normalizeRanges f).model = f.model ∧
      (normalizeRanges f).wovr_status = f.wovr_status ∧
      (normalizeRanges f).sale_status = f.sale_status ∧
      (normalizeRanges f).incident_types = f.incident_types ∧
      (normalizeRanges f).auction_house = f.auction_house ∧
      (normalizeRanges f).state = f.state) := by
  refine ⟨?_, ?_, ?_, ?_, ?_, ?_, ?_⟩
  · intro a b ha hb hab
    have hy : yearsReversed f = true := by simp [yearsReversed, ha, hb, hab]
    have h1 : (normalizeRanges f).yearFrom = some b := by
      simp [normalizeRanges_eq, hy, hb]
    have h2 : (normalizeRanges f).yearTo = some a := by
      simp [normalizeRanges_eq, hy, ha]
    exact ⟨h1, h2, mem_buildPreds_yearFrom h1, mem_buildPreds_yearTo h2⟩
  · intro a b ha hb hab
    have hp : pricesReversed f = true := by simp [pricesReversed, ha, hb, hab]
    have h1 : (normalizeRanges f).priceMin = some b := by
      simp [normalizeRanges_eq, hp, hb]
    have h2 : (normalizeRanges f).priceMax = some a := by
      simp [normalizeRanges_eq, hp, ha]
    exact ⟨h1, h2, mem_buildPreds_priceMin h1, mem_buildPreds_priceMax h2⟩
  · intro h1 h2 h3
    have hd : datesReversed f = true := by simp [datesReversed, h1, h2, h3]
    have e1 : (normalizeRanges f).dateFrom = f.dateTo := by
      simp [normalizeRanges_eq, hd]
    have e2 : (normalizeRanges f).dateTo = f.dateFrom := by
      simp [normalizeRanges_eq, hd]
    refine ⟨e1, e2, ?_, ?_⟩
    · have := @mem_buildPreds_dateFrom (normalizeRanges f)
        wm dmgOpts (by rw [e1]; exact h2)
      rw [e1] at this
      exact this
    · have := @mem_buildPreds_dateTo (normalizeRanges f)
        wm dmgOpts (by rw [e2]; exact h1)
      rw [e2] at this
      exact this
  · intro h
    constructor <;> simp [normalizeRanges_eq, h]
  · intro h
    constructor <;> simp [normalizeRanges_eq, h]
  · intro h
    constructor <;> simp [normalizeRanges_eq, h]
  · refine ⟨?_, ?_, ?_, ?_, ?_, ?_, ?_, ?_, ?_⟩ <;> simp [normalizeRanges_eq]

/-- Witness for C1: the spec's scenario (make Toyota, years 2020/2018)
extended with a reversed price range and a reversed date range; the query
carries the swapped bounds, and the make field passes through. -/
theorem C1_reversed_ranges_swapped_witness :
    Pred.gteN "year" 2018 ∈
      (fetchQuery filtersAllReversed [] [] ⟨"sold_date", Direction.desc⟩ 1 25).preds ∧
    Pred.lteN "year" 2020 ∈
      (fetchQuery filtersAllReversed [] [] ⟨"sold_date", Direction.desc⟩ 1 25).preds ∧
    Pred.gteN "sold_price" 1000 ∈
      (fetchQuery filtersAllReversed [] [] ⟨"sold_date", Direction.desc⟩ 1 25).preds ∧
    Pred.gteD "sold_date" (toStartOfDayISO "2024-01-01") ∈
      (fetchQuery filtersAllReversed [] [] ⟨"sold_date", Direction.desc⟩ 1 25).preds ∧
    (normalizeRanges filtersAllReversed).make = "Toyota" := by
  have h := C1_reversed_ranges_swapped filtersAllReversed
    [] [] ⟨"sold_date", Direction.desc⟩ 1 25
  refine ⟨(h.1 2020 2018 rfl rfl (by decide)).2.2.1,
    (h.1 2020 2018 rfl rfl (by decide)).2.2.2,
    (h.2.1 5000 1000 rfl rfl (by decide)).2.2.1,
    ?_, h.2.2.2.2.2.2.2.2.1⟩
  exact (h.2.2.1 (by decide) (by decide) (by decide)).2.2.1

/-- C10: a VIN or buyer-number input that is empty or whitespace-only
contributes no predicate to the built query, and a non-blank input
contributes the case-insensitive equality predicate on its trimmed
string. -/
theorem C10_trimmed_exact_match_filters (f : Filters) (wm : List (String × List String))
    (dmgOpts : List String) (srt : SortSpec) (page pageSize : Nat) :
    (trimJS f.vin = "" →
      ∀ v, Pred.ilike "vin" v ∉ (fetchQuery f wm dmgOpts srt page pageSize).preds) ∧
    (trimJS f.vin ≠ "" →
      Pred.ilike "vin" (trimJS f.vin) ∈ (fetchQuery f wm dmgOpts srt page pageSize).preds) ∧
    (trimJS f.buyer_no = "" →
      ∀ v, Pred.ilike "buyer_number" v ∉ (fetchQuery f wm dmgOpts srt page pageSize).preds) ∧
    (trimJS f.buyer_no ≠ "" →
      Pred.ilike "buyer_number" (trimJS f.buyer_no) ∈
        (fetchQuery f wm dmgOpts srt page pageSize).preds) := by
  have hv : (normalizeRanges f).vin = f.vin := normalizeRanges_vin f
  have hb : (normalizeRanges f).buyer_no = f.buyer_no := normalizeRanges_buyer_no f
  refine ⟨fun h v => ?_, fun h => ?_, fun h v => ?_, fun h => ?_⟩
  · simp [fetchQuery, ilike_mem_buildPreds, hv, hb, h]
  · simp [fetchQuery, ilike_mem_buildPreds, hv, hb, h]
  · simp [fetchQuery, ilike_mem_buildPreds, hv, hb, h]
  · simp [fetchQuery, ilike_mem_buildPreds, hv, hb, h]

/-- Witness for C10: a whitespace-only VIN yields no VIN predicate; a
padded buyer number yields the equality predicate on its trimmed form. -/
theorem C10_trimmed_exact_match_filters_witness :
    (∀ v, Pred.ilike "vin" v ∉
      (fetchQuery filtersPaddedText [] [] ⟨"sold_date", Direction.desc⟩ 1 25).preds) ∧
    Pred.ilike "buyer_number" "B12345" ∈
      (fetchQuery filtersPaddedText [] [] ⟨"sold_date", Direction.desc⟩ 1 25).preds := by
  have h := C10_trimmed_exact_match_filters filtersPaddedText
    [] [] ⟨"sold_date", Direction.desc⟩ 1 25
  refine ⟨h.1 (by decide), ?_⟩
  have hb : trimJS filtersPaddedText.buyer_no = "B12345" := by decide
  have := h.2.2.2 (by decide)
  rwa [hb] at this

/-- C6: the effective sort column used when building the query is the
requested column when it is in the `SORTABLE` allow-list, and falls back
to the row identifier column `id` otherwise. -/
theorem C6_sort_column_fallback (f : Filters) (wm : List (String × List String))
    (dmgOpts : List String) (srt : SortSpec) (page pageSize : Nat) :
    (srt.column ∈ SORTABLE →
      (fetchQuery f wm dmgOpts srt page pageSize).sortColumn = srt.column) ∧
    (srt.column ∉ SORTABLE →
      (fetchQuery f wm dmgOpts srt page pageSize).sortColumn = "id") := by
  constructor <;> intro h <;> simp [fetchQuery, h]

/-- Witness for C6: the UI-only column `link` is not sortable and falls
back to `id`; `year` is sortable and is used as requested. -/
theorem C6_sort_column_fallback_witness :
    ("link" ∉ SORTABLE ∧
      (fetchQuery INITIAL_FILTERS [] [] ⟨"link", Direction.desc⟩ 1 25).sortColumn = "id") ∧
    ("year" ∈ SORTABLE ∧
      (fetchQuery INITIAL_FILTERS [] [] ⟨"year", Direction.asc⟩ 1 25).sortColumn = "year") :=
  ⟨⟨by decide,
    (C6_sort_column_fallback INITIAL_FILTERS [] [] ⟨"link", Direction.desc⟩ 1 25).2 (by decide)⟩,
   ⟨by decide,
    (C6_sort_column_fallback INITIAL_FILTERS [] [] ⟨"year", Direction.asc⟩ 1 25).1 (by decide)⟩⟩

/-- C7: `toggleSort` is a no-op on a column outside the allow-list; on the
currently active sortable column it keeps the column and flips the
direction (asc becomes desc, desc becomes asc); and on a different
sortable column it selects that column ascending. -/
theorem C7_toggleSort_cases (s : SortSpec) (c : String) :
    (c ∉ SORTABLE → toggleSort s c = s) ∧
    (c ∈ SORTABLE → s.column = c → s.direction = Direction.asc →
      toggleSort s c = ⟨c, Direction.desc⟩) ∧
    (c ∈ SORTABLE → s.column = c → s.direction = Direction.desc →
      toggleSort s c = ⟨c, Direction.asc⟩) ∧
    (c ∈ SORTABLE → s.column ≠ c → toggleSort s c = ⟨c, Direction.asc⟩) := by
  refine ⟨fun h => by simp [toggleSort, h], fun h h1 h2 => ?_, fun h h1 h2 => ?_,
    fun h h1 => ?_⟩
  · simp [toggleSort, h, h1, h2]
  · simp [toggleSort, h, h1, h2]
  · simp [toggleSort, h, h1]

/-- Witness for C7: toggling the active ascending `year` flips it to
descending; toggling `make` from there selects `make` ascending; toggling
the non-sortable `link` changes nothing. -/
theorem C7_toggleSort_cases_witness :
    toggleSort ⟨"year", Direction.asc⟩ "year" = ⟨"year", Direction.desc⟩ ∧
    toggleSort ⟨"year", Direction.desc⟩ "year" = ⟨"year", Direction.asc⟩ ∧
    toggleSort ⟨"year", Direction.asc⟩ "make" = ⟨"make", Direction.asc⟩ ∧
    toggleSort ⟨"year", Direction.asc⟩ "link" = ⟨"year", Direction.asc⟩ :=
  ⟨(C7_toggleSort_cases ⟨"year", Direction.asc⟩ "year").2.1 (by decide) rfl rfl,
   (C7_toggleSort_cases ⟨"year", Direction.desc⟩ "year").2.2.1 (by decide) rfl rfl,
   (C7_toggleSort_cases ⟨"year", Direction.asc⟩ "make").2.2.2 (by decide) (by decide),
   (C7_toggleSort_cases ⟨"year", Direction.asc⟩ "link").1 (by decide)⟩

/-- C9: for every total (including zero) and every allowed page size the
computed page count is at least 1: with zero results the pager reports
page 1 of 1 and both navigation operations stay at page 1. -/
theorem C9_totalPages_at_least_one (total ps : Nat) (h : ps ∈ PAGE_SIZES) :
    1 ≤ totalPages total ps ∧ totalPages 0 ps = 1 ∧
    nextPage ⟨1, ps, 0⟩ = ⟨1, ps, 0⟩ ∧ prevPage ⟨1, ps, 0⟩ = ⟨1, ps, 0⟩ := by
  refine ⟨le_max_left _ _, ?_⟩
  fin_cases h <;> refine ⟨by decide, by decide, by decide⟩

/-- Witness for C9 at total 0, page size 25. -/
theorem C9_totalPages_at_least_one_witness :
    1 ≤ totalPages 0 25 ∧ totalPages 0 25 = 1 ∧
    nextPage ⟨1, 25, 0⟩ = ⟨1, 25, 0⟩ ∧ prevPage ⟨1, 25, 0⟩ = ⟨1, 25, 0⟩ :=
  C9_totalPages_at_least_one 0 25 (by decide)

/-- C5: on success `fetchData` replaces the rows and total wholesale with
the response values (with null coalesced to `[]`/`0`) and leaves the error
cleared; on failure it empties the rows, zeroes the total and records a
non-empty error message; and the loading flag is `false` on both paths. -/
theorem C5_fetch_outcome {α : Type} (resp : FetchResponse α) :
    (applyFetch resp).loading = false ∧
    (∀ d c, resp = FetchResponse.ok d c →
      (applyFetch resp).rows = d.getD [] ∧ (applyFetch resp).total = c.getD 0 ∧
      (applyFetch resp).error = "") ∧
    (∀ m, resp = FetchResponse.err m →
      (applyFetch resp).rows = [] ∧ (applyFetch resp).total = 0 ∧
      (applyFetch resp).error ≠ "") := by
  refine ⟨by cases resp <;> rfl, ?_, ?_⟩
  · rintro d c rfl
    exact ⟨rfl, rfl, rfl⟩
  · rintro m rfl
    refine ⟨rfl, rfl, ?_⟩
    by_cases hm : m = "" <;> simp [applyFetch, hm]

/-- Witness for C5: a failure with an absent message records the fallback
message, clears the rows and total, and drops the loading flag. -/
theorem C5_fetch_outcome_witness :
    (applyFetch (FetchResponse.err (α := Nat) "")).rows = [] ∧
    (applyFetch (FetchResponse.err (α := Nat) "")).total = 0 ∧
    (applyFetch (FetchResponse.err (α := Nat) "")).error ≠ "" :=
  (C5_fetch_outcome (FetchResponse.err (α := Nat) "")).2.2 "" rfl

/-- C4: for a non-empty VIN, `focusVinAll` pushes the snapshot of the
current filters, page, sort and page size, resets the page to 1 and
narrows the filters to the initial defaults plus that VIN; `goBack` then
pops the snapshot and restores the prior state exactly. -/
theorem C4_focus_then_back_roundtrip (s : AppState) (v : String) (hv : v ≠ "") :
    (focusVinAll v s).filters = { INITIAL_FILTERS with vin := v } ∧
    (focusVinAll v s).page = 1 ∧
    (focusVinAll v s).sort = s.sort ∧
    (focusVinAll v s).pageSize = s.pageSize ∧
    (focusVinAll v s).history = s.history ++ [⟨s.filters, s.page, s.sort, s.pageSize⟩] ∧
    goBack (focusVinAll v s) = s := by
  have hf : focusVinAll v s =
      { filters := { INITIAL_FILTERS with vin := v }
        page := 1
        sort := s.sort
        pageSize := s.pageSize
        history := s.history ++ [⟨s.filters, s.page, s.sort, s.pageSize⟩] } := by
    simp [focusVinAll, hv]
  refine ⟨by rw [hf], by rw [hf], by rw [hf], by rw [hf], by rw [hf], ?_⟩
  rw [hf]
  simp [goBack, List.getLast?_concat, List.dropLast_concat]

/-- C2: with a non-empty damage selection the query carries a
set-membership predicate over the expanded selection, and membership in
that expansion is exact: a raw option is in the set iff it is a verbatim
non-quick-pick selection, or some selected `(ALL) <tag>` quick pick has
its tag in the option's comma-split, trimmed, lowercased token list. -/
theorem C2_damage_all_expansion (f : Filters) (wm : List (String × List String))
    (dmgOpts : List String) (srt : SortSpec) (page pageSize : Nat)
    (h : f.incident_types ≠ []) :
    Pred.inList "incident_type" (expandDamage dmgOpts f.incident_types) ∈
      (fetchQuery f wm dmgOpts srt page pageSize).preds ∧
    ∀ x, x ∈ expandDamage dmgOpts f.incident_types ↔
      (∃ sel ∈ f.incident_types, startsWithJS sel "(ALL) " = false ∧ x = sel) ∨
      (x ∈ dmgOpts.filter (fun o => ¬ startsWithJS o "(ALL) ") ∧
        ∃ sel ∈ f.incident_types, startsWithJS sel "(ALL) " = true ∧
          allTag sel ∈ damageTokens x) := by
  constructor
  · have hi : (normalizeRanges f).incident_types = f.incident_types :=
      normalizeRanges_incident_types f
    have := @mem_buildPreds_incident (normalizeRanges f)
      wm dmgOpts (by rw [hi]; exact h)
    rw [hi] at this
    exact this
  · intro x
    exact mem_expandDamage

/-- Witness for C2: selecting `(ALL) Water` together with the raw value
`Front` expands to exactly the raw options whose token list contains
`water`, plus `Front` verbatim; `Burn` is not added. -/
theorem C2_damage_all_expansion_witness :
    Pred.inList "incident_type"
        (expandDamage damageOptsEx filtersDamageEx.incident_types) ∈
      (fetchQuery filtersDamageEx [] damageOptsEx
        ⟨"sold_date", Direction.desc⟩ 1 25).preds ∧
    "Rear, Water" ∈ expandDamage damageOptsEx filtersDamageEx.incident_types ∧
    "Front" ∈ expandDamage damageOptsEx filtersDamageEx.incident_types ∧
    "Burn" ∉ expandDamage damageOptsEx filtersDamageEx.incident_types := by
  have h := C2_damage_all_expansion filtersDamageEx [] damageOptsEx
    ⟨"sold_date", Direction.desc⟩ 1 25 (by decide)
  refine ⟨h.1, (h.2 "Rear, Water").mpr ?_, (h.2 "Front").mpr ?_, fun hmem => ?_⟩
  · exact Or.inr ⟨by decide, "(ALL) Water", by decide, by decide, by decide⟩
  · exact Or.inl ⟨"Front", by decide, by decide, rfl⟩
  · have := (h.2 "Burn").mp hmem
    revert this
    decide

/-- C3 counterexample: a row whose auction date parsed 3 days before `now`
(inside the 7-day window) but whose `url` field is absent renders the
placeholder, not an active link, so the timestamp condition alone does not
determine the rendering as the claim states. -/
theorem C3_link_window_counterexample :
    refTsOf parseFix rowNoUrl = some 0 ∧
    (3 * 24 * 60 * 60 * 1000 : Int) ≤ 0 + 7 * 24 * 60 * 60 * 1000 ∧
    renderLinkCell parseFix (3 * 24 * 60 * 60 * 1000) rowNoUrl =
      LinkCell.placeholder := by
  refine ⟨by decide, by decide, by decide⟩

/-- C3 (amended): the link cell renders an active link exactly when the
row has a non-empty url string AND some reference timestamp exists (the
auction date when parseable, otherwise the sold date) with the current
time at most 7 days after it; in every other case it renders the
placeholder.  The spec's scenarios hold: an auction date 10 days in the
past (no sold date) renders the placeholder, 3 days in the past renders an
active link. -/
theorem C3_link_window_amended (parse : String → Option Int) (now : Int) (r : Row) :
    renderLinkCell parse now r =
      (if linkVisibleSpec parse now r then LinkCell.link (r.url.getD "")
       else LinkCell.placeholder) ∧
    renderLinkCell parseFix (10 * 24 * 60 * 60 * 1000) rowWithUrl =
      LinkCell.placeholder ∧
    renderLinkCell parseFix (3 * 24 * 60 * 60 * 1000) rowWithUrl =
      LinkCell.link "https://example.com/lot/1" := by
  refine ⟨?_, by decide, by decide⟩
  by_cases hu : r.url.getD "" = ""
  · simp [renderLinkCell, linkVisibleSpec, hu]
  · cases ha : tsOf parse r.auction_date <;> cases hs : tsOf parse r.sold_date <;>
      simp [renderLinkCell, linkVisibleSpec, refTsOf, ha, hs, hu] <;>
        (split <;> split <;> first | rfl | omega)

/-- C8 counterexample: from the reachable state page 3 of 3 (total 57,
page size 25), changing the page size to 100 leaves the page at 3 while
the computed page count drops to 1, so the `page ≤ ceil(total/pageSize)`
invariant is not maintained by the page-size operation. -/
theorem C8_page_clamp_counterexample :
    pagerInv ⟨3, 25, 57⟩ ∧ 100 ∈ PAGE_SIZES ∧
    ¬ pagerInv (setPageSizeOp 100 ⟨3, 25, 57⟩) := by
  refine ⟨by decide, by decide, by decide⟩

/-- C8 (amended): page navigation keeps the page within
`[1, ceil(total/pageSize)]` — `Prev` and `Next` preserve the invariant,
a filter update resets the page to 1 which re-establishes it, with
total 57 and page size 25 the page count is 3, `Next` from page 3 is
rejected and `Prev` from page 1 is rejected — but operations that change
the page size or the total do not re-clamp the page, so the invariant is
not maintained by those. -/
theorem C8_page_clamp_amended (s : PagerState) (h : pagerInv s) :
    pagerInv (prevPage s) ∧ pagerInv (nextPage s) ∧ pagerInv (resetPageOp s) ∧
    totalPages 57 25 = 3 ∧
    nextPage ⟨3, 25, 57⟩ = ⟨3, 25, 57⟩ ∧
    prevPage ⟨1, 25, 57⟩ = ⟨1, 25, 57⟩ := by
  obtain ⟨h1, h2⟩ := h
  have ht : 1 ≤ totalPages s.total s.pageSize := le_max_left _ _
  refine ⟨⟨le_max_left _ _, ?_⟩, ⟨?_, ?_⟩, ⟨le_refl _, ht⟩,
    by decide, by decide, by decide⟩
  · simp only [prevPage]
    omega
  · simp only [nextPage]
    omega
  · simp only [nextPage]
    exact min_le_left _ _

/-- Witness for C8 (amended) at the spec's scenario state. -/
theorem C8_page_clamp_amended_witness :
    pagerInv (prevPage ⟨3, 25, 57⟩) ∧ pagerInv (nextPage ⟨3, 25, 57⟩) ∧
    pagerInv (resetPageOp ⟨3, 25, 57⟩) ∧ totalPages 57 25 = 3 ∧
    nextPage ⟨3, 25, 57⟩ = ⟨3, 25, 57⟩ ∧ prevPage ⟨1, 25, 57⟩ = ⟨1, 25, 57⟩ :=
  C8_page_clamp_amended ⟨3, 25, 57⟩ (by decide)

/-- Witness for C4 at a concrete state and VIN. -/
theorem C4_focus_then_back_roundtrip_witness :
    goBack (focusVinAll "MR0FZ22G401062065"
      ⟨{ INITIAL_FILTERS with make := "Toyota" }, 2, ⟨"year", Direction.asc⟩, 50, []⟩) =
      ⟨{ INITIAL_FILTERS with make := "Toyota" }, 2, ⟨"year", Direction.asc⟩, 50, []⟩ :=
  (C4_focus_then_back_roundtrip
    ⟨{ INITIAL_FILTERS with make := "Toyota" }, 2, ⟨"year", Direction.asc⟩, 50, []⟩
    "MR0FZ22G401062065" (by decide)).2.2.2.2.2

end WreckWatch
